import Mathlib

/-!
Shallow embedding of `faust/worker.py`.

The module defines the `Worker` launcher: its dependency resolution
(`on_init_dependencies`), the working-directory hook (`on_first_start`),
root-logger setup and the terminal spinner (`on_setup_root_logger`,
`SpinnerHandler.emit`, `on_startup_finished`), the lazy `website` accessor,
and the startup banner (`ARTLINES`, `F_BANNER`, `Worker.banner`).

Services, sensors and beacons are identified by natural-number ids; strings
stand for paths and rendered text.  Machinery that lives outside the given
source file (the `Beacon.reattach` operation, `cached_property`,
`level_name`) is modelled from the spec and marked as such in its doc
comment.
-/

namespace FaustWorker

/-- Python `logging.WARN` (numeric value 30). -/
def WARN : Nat := 30

/-- Python `logging.DEBUG` (numeric value 10). -/
def DEBUG : Nat := 10

/-- A terminal progress spinner (the `progress` package's `Spinner`): we track
the number of animation ticks (`next()` calls) and whether `finish()` ran. -/
structure Spinner where
  ticks : Nat
  finished : Bool
deriving DecidableEq

/-- A log record as far as the worker observes it: its numeric level. -/
structure LogRecord where
  levelno : Nat
deriving DecidableEq

/-- A supervision-tree node: a back-reference to a parent node id. -/
structure Beacon where
  parent : Option Nat
deriving DecidableEq

/-- The slice of the application object that `Worker` touches: its beacon,
its sensor set (Python `set`, modelled as a duplicate-free-by-insertion
list), and whether the worker's `on_startup_finished` callback has been
assigned to `app.on_startup_finished`. -/
structure App where
  beacon : Beacon
  sensors : List Nat
  onStartupFinishedSet : Bool
deriving DecidableEq

/-- The `Worker` state: the app (with its service id `appId`), the auxiliary
services in caller order, the sensors given at construction, the working
directory, the spinner handle (`None` once disabled), the memoization cell
behind the `website` cached property together with a fresh-id counter for
instance identity, and the worker's own beacon id. -/
structure Worker where
  app : App
  appId : Nat
  services : List Nat
  sensors : List Nat
  workdir : String
  spinner : Option Spinner
  websiteCache : Option Nat
  nextId : Nat
  beaconId : Nat
deriving DecidableEq

/-- `Worker.__init__`: stores the app, the auxiliary services in the
caller-supplied order (they are forwarded to `ServiceWorker.__init__`
unchanged), materialises the `sensors` iterable (`set(sensors or [])`),
records the working directory (`Path(workdir or Path.cwd())`, so always
set), and creates the spinner (`Spinner(file=self.stdout)`).  The website
cache starts empty: the website is not constructed here. -/
def Worker.construct (app : App) (appId : Nat) (services : List Nat)
    (sensors : List Nat) (workdir : String) (beaconId : Nat) : Worker :=
  { app := app, appId := appId, services := services, sensors := sensors,
    workdir := workdir,
    spinner := some { ticks := 0, finished := false },
    websiteCache := none, nextId := 0, beaconId := beaconId }

/-- Modelled from the spec: `Beacon.reattach` lives in the service framework,
not under `src/`; per the spec a reattachment operation sets the node's
parent reference to the target node (diagnostics only, no ownership). -/
def Beacon.reattach (b : Beacon) (parent : Nat) : Beacon :=
  { b with parent := some parent }

/-- Python `set.add`: insert `x` into the sensor set unless already present. -/
def setAdd (s : List Nat) (x : Nat) : List Nat :=
  if x ∈ s then s else s ++ [x]

/-- The sensor-transfer loop of `Worker.on_init_dependencies`:
`for sensor in self.sensors: self.app.sensors.add(sensor)`. -/
def addSensors (appSensors : List Nat) (workerSensors : List Nat) : List Nat :=
  workerSensors.foldl setAdd appSensors

/-- Modelled from the spec: `cached_property` (from `faust.utils.objects`,
not under `src/`) makes `Worker.website` a lazily-constructed memoized
accessor — the first access constructs the website through the configured
factory and caches it, every later access returns the cached instance.
Instance identity is rendered as an allocation id drawn from `nextId`. -/
def Worker.websiteAccess (w : Worker) : Nat × Worker :=
  match w.websiteCache with
  | some site => (site, w)
  | none =>
      (w.nextId, { w with websiteCache := some w.nextId, nextId := w.nextId + 1 })

/-- `Worker.on_init_dependencies`: reattach the app's beacon under the
worker's beacon, transfer the worker's sensors into `app.sensors`, install
the worker's `on_startup_finished` callback on the app, and return
`chain([self.website], self.services, [self.app])` — accessing
`self.website` constructs it through the cached property. -/
def Worker.on_init_dependencies (w : Worker) : List Nat × Worker :=
  let app1 := { w.app with beacon := w.app.beacon.reattach w.beaconId }
  let app2 := { app1 with sensors := addSensors app1.sensors w.sensors }
  let app3 := { app2 with onStartupFinishedSet := true }
  let w1 := { w with app := app3 }
  let site := w1.websiteAccess
  (site.1 :: (site.2.services ++ [site.2.appId]), site.2)

/-- `Worker.on_startup_finished`: after `maybe_start_blockdetection`
(external), if the spinner handle is set it is finished and cleared and the
terse ready marker is said; otherwise a plain `Ready` is logged.  Returns
the new worker state and the emitted message. -/
def Worker.on_startup_finished (w : Worker) : Worker × String :=
  match w.spinner with
  | some _ => ({ w with spinner := none }, "ready- ^")
  | none => (w, "Ready")

/-- `SpinnerHandler.emit`: advance the worker's spinner once per log record
while the handle is set (`if self.worker.spinner: self.worker.spinner.next()`);
with the handle cleared the body does nothing.  The record's own level is
never consulted, and the function is total (no exception path). -/
def SpinnerHandler.emit (w : Worker) (record : LogRecord) : Worker :=
  match w.spinner with
  | some s => { w with spinner := some { s with ticks := s.ticks + 1 } }
  | none => w

/-- Kinds of root-logger handlers the embedding distinguishes: the
pre-existing stream/file handler installed by logging setup, and the
worker's `SpinnerHandler`. -/
inductive HandlerKind where
  | stream
  | spinnerHandler
deriving DecidableEq

/-- A logging handler: its kind and its own level threshold. -/
structure Handler where
  kind : HandlerKind
  hlevel : Nat
deriving DecidableEq

/-- The root logger: its own level and its ordered handler list. -/
structure RootLogger where
  level : Nat
  handlers : List Handler
deriving DecidableEq

/-- `Worker.on_setup_root_logger(logger, level)`: a truthy level below
`logging.WARN` clears the spinner (`if level and level < logging.WARN`);
then, if the spinner is still set, `logger.handlers[0].setLevel(level)`
(an `IndexError` — hence `none` — if the logger has no handlers),
`logger.addHandler(SpinnerHandler(self, level=logging.DEBUG))`, and
`logger.setLevel(logging.DEBUG)`. -/
def Worker.on_setup_root_logger (w : Worker) (lg : RootLogger) (level : Nat) :
    Option (Worker × RootLogger) :=
  let w1 := if level ≠ 0 ∧ level < WARN then { w with spinner := none } else w
  match w1.spinner with
  | some _ =>
      match lg.handlers with
      | [] => none
      | h :: hs =>
          some (w1, { lg with
            handlers := ({ h with hlevel := level } :: hs)
              ++ [{ kind := HandlerKind.spinnerHandler, hlevel := DEBUG }],
            level := DEBUG })
  | none => some (w1, lg)

/-- Process-global events performed by `Worker.on_first_start`, in order. -/
inductive Ev where
  | chdir (path : String)
  | setupLogging
deriving DecidableEq

/-- `Worker.on_first_start`: `self.workdir` is always a `Path` (truthy), so
the guard reduces to comparing the absolute current directory against the
absolute working directory; when they differ, `os.chdir` runs first, and
only then does `super().on_first_start()` set up logging.  Returns the
resulting current directory and the ordered trace of process-global
events. -/
def Worker.on_first_start (w : Worker) (cwd : String) : String × List Ev :=
  if cwd ≠ w.workdir then (w.workdir, [Ev.chdir w.workdir, Ev.setupLogging])
  else (cwd, [Ev.setupLogging])
/-- `ARTLINES`: the ASCII art of the startup banner. -/
def ARTLINES : String :=
  "                                       .x+=:.        s\n   oec :                               z\x60    ^%      :8\n  @88888                 x.    .          .   <k    .88\n  8\"*88%        u      .@88k  z88u      .@8Ned8\"   :888ooo\n  8b.        us888u.  ~\"8888 ^8888    .@^%8888\"  -*8888888\n u888888> .@88 \"8888\"   8888  888R   x88:  \x60)8b.   8888\n  8888R   9888  9888    8888  888R   8888N=*8888   8888\n  8888P   9888  9888    8888  888R    %8\"    R88   8888\n  *888>   9888  9888    8888 ,888B .   @8Wou 9%   .8888Lu=\n  4888    9888  9888   \"8888Y 8888\"  .888888P\x60    ^%888*\n  \x27888    \"888*\"\"888\"   \x60Y\"   \x27YP    \x60   ^\"F        \x27Y\"\n   88R     ^Y\"   ^Y\x27\n   88>\n   48\n   \x278\n"

/-- `F_IDENT.format(...)`: the banner info line with each hole substituted. -/
def F_IDENT_format (faustV system transportV httpV py pyV : String) : String :=
  "ƒaµS† v" ++ faustV ++ " " ++ system ++ " (" ++ transportV ++ " " ++ httpV
    ++ " " ++ py ++ "=" ++ pyV ++ ")"

/-- `F_BANNER.format(...)`: the startup-banner template with each hole
substituted; the raw template's surrounding newlines are removed by
`.strip()`, so the rendered text starts with the art and ends with the
closing bracket. -/
def F_BANNER_format (art ident appId websiteUrl logfile loglevel pid hostname
    loopRepr appUrl transportExtra appStore : String) : String :=
  art ++ "\n" ++ ident
    ++ "\n[ .id          -> " ++ appId
    ++ "\n  .web         -> " ++ websiteUrl
    ++ "\n  .log         -> " ++ logfile ++ " (" ++ loglevel ++ ")"
    ++ "\n  .pid         -> " ++ pid
    ++ "\n  .hostname    -> " ++ hostname
    ++ "\n  .loop        -> " ++ loopRepr
    ++ "\n  .transport   -> " ++ appUrl ++ " " ++ transportExtra
    ++ "\n  .store       -> " ++ appStore ++ " ]"

/-- Modelled from the spec: `level_name` (from `faust.utils.logging`, not
under `src/`) maps a log level to its name; on a string argument it returns
the upper-case level name (the banner then lower-cases it, giving the
"lower-cased log level name" of the spec). -/
def level_name (l : String) : String := (l.toList.map Char.toUpper).asString

/-- The snapshot of runtime facts `Worker.banner` reads (the spec's
`BannerContext`). -/
structure BannerContext where
  appId : String
  websiteUrl : String
  logfile : Option String
  loglevel : Option String
  pid : Nat
  hostname : String
  loopRepr : String
  loopModule : String
  appUrl : String
  appStore : String
  ident : String

/-- `Worker.banner()`: `transport_extra` is `"+uvloop"` exactly when the
event loop's class module is `uvloop`; `logfile` falls back to the
`-stderr-` sentinel, `loglevel` to `WARN`, passed through `level_name` and
lower-cased; the pid is rendered in decimal. -/
def banner (ctx : BannerContext) : String :=
  let transportExtra := if ctx.loopModule = "uvloop" then "+uvloop" else ""
  F_BANNER_format ARTLINES ctx.ident ctx.appId ctx.websiteUrl
    (ctx.logfile.getD "-stderr-")
    (((level_name (ctx.loglevel.getD "WARN")).toList.map Char.toLower).asString)
    (toString ctx.pid) ctx.hostname ctx.loopRepr ctx.appUrl
    transportExtra ctx.appStore

/-- Substring search worker: does `pat` occur at some position of the list? -/
def containsAux (pat : List Char) : List Char → Bool
  | [] => pat.isPrefixOf []
  | c :: rest => pat.isPrefixOf (c :: rest) || containsAux pat rest

/-- Whether `pat` occurs as a contiguous substring of `s`. -/
def containsSub (s pat : String) : Bool := containsAux pat.toList s.toList

/-- The concrete banner context of the spec's Scenario D. -/
def scenarioD : BannerContext :=
  { appId := "x", websiteUrl := "http://h:6066", logfile := none,
    loglevel := some "WARN", pid := 1234, hostname := "node1",
    loopRepr := "<uvloop.Loop running=False closed=False debug=False>",
    loopModule := "uvloop", appUrl := "kafka://localhost:9092",
    appStore := "memory://",
    ident := F_IDENT_format "1.0.30" "Linux" "aiokafka=0.4.19" "aiohttp=2.3.10"
      "CPython" "3.6.4" }

/-! ## Sample instances used by witnesses and counterexamples -/

/-- A sample application: one pre-existing sensor `7`, unlinked beacon. -/
def sampleApp : App :=
  { beacon := { parent := none }, sensors := [7], onStartupFinishedSet := false }

/-- A sample worker: app id `99`, auxiliary services `[1, 2]`, supplied
sensors `[3, 7]`, working directory `/var/faust`, beacon id `42`. -/
def sampleWorker : Worker :=
  Worker.construct sampleApp 99 [1, 2] [3, 7] "/var/faust" 42

/-- A root logger as logging setup leaves it: level `WARN`, one pre-existing
stream handler. -/
def sampleLogger : RootLogger :=
  { level := WARN, handlers := [{ kind := HandlerKind.stream, hlevel := 0 }] }

/-! ## Helper lemmas -/

theorem mem_setAdd_of_mem {x : Nat} {s : List Nat} (y : Nat) (hx : x ∈ s) :
    x ∈ setAdd s y := by
  unfold setAdd
  split
  · exact hx
  · exact List.mem_append_left _ hx

theorem mem_setAdd_self (s : List Nat) (y : Nat) : y ∈ setAdd s y := by
  unfold setAdd
  split
  · assumption
  · exact List.mem_append_right _ (List.mem_singleton.mpr rfl)

theorem mem_addSensors_of_mem_left {x : Nat} (l : List Nat) {s : List Nat}
    (hx : x ∈ s) : x ∈ addSensors s l := by
  induction l generalizing s with
  | nil => exact hx
  | cons a t ih => exact ih (mem_setAdd_of_mem a hx)

theorem mem_addSensors_of_mem {x : Nat} {l : List Nat} (s : List Nat)
    (hx : x ∈ l) : x ∈ addSensors s l := by
  induction l generalizing s with
  | nil => cases hx
  | cons a t ih =>
      rcases List.mem_cons.mp hx with h | h
      · subst h
        exact mem_addSensors_of_mem_left t (mem_setAdd_self s x)
      · exact ih (setAdd s a) h

/-- Reduction of the app component after `on_init_dependencies`: the beacon is
reattached, the sensors merged, the callback installed (the website access
that follows never touches the app). -/
theorem on_init_app (w : Worker) :
    ((w.on_init_dependencies).2).app =
      { beacon := w.app.beacon.reattach w.beaconId,
        sensors := addSensors w.app.sensors w.sensors,
        onStartupFinishedSet := true } := by
  cases h : w.websiteCache <;>
    simp [Worker.on_init_dependencies, Worker.websiteAccess, h]

/-- A worker with a cleared spinner passes through root-logger setup
unchanged. -/
theorem setup_root_logger_of_disabled (w : Worker) (lg : RootLogger)
    (level : Nat) (hnone : w.spinner = none) :
    w.on_setup_root_logger lg level = some (w, lg) := by
  have hw : ({ w with spinner := none } : Worker) = w := by
    cases w
    simp_all
  unfold Worker.on_setup_root_logger
  by_cases hg : level ≠ 0 ∧ level < WARN <;> simp [hg, hw, hnone]

/-! ## Claims -/

/-- C1: a worker constructed from application `A` and auxiliary services
`[S1, ..., Sn]` in that order resolves its dependency list to exactly
`[website, S1, ..., Sn, A]`: the (lazily constructed) website first, the
auxiliary services in the caller-supplied order, the application last. -/
theorem dependency_order (app : App) (appId : Nat) (services sensors : List Nat)
    (workdir : String) (beaconId : Nat) :
    ∃ site : Nat,
      ((Worker.construct app appId services sensors workdir
          beaconId).on_init_dependencies).2.websiteCache = some site ∧
      ((Worker.construct app appId services sensors workdir
          beaconId).on_init_dependencies).1 = site :: (services ++ [appId]) :=
  ⟨0, rfl, rfl⟩

/-- C2: on the first-start hook, a working directory different from the
current one is changed into before logging setup runs; an equal one causes
no change; and a second invocation after the change performs no further
directory change. -/
theorem first_start_chdir (w : Worker) (cwd : String) :
    (cwd ≠ w.workdir →
      w.on_first_start cwd = (w.workdir, [Ev.chdir w.workdir, Ev.setupLogging])) ∧
    (cwd = w.workdir → w.on_first_start cwd = (cwd, [Ev.setupLogging])) ∧
    (w.on_first_start (w.on_first_start cwd).1).2 = [Ev.setupLogging] := by
  unfold Worker.on_first_start
  by_cases h : cwd = w.workdir <;> simp [h]

/-- C2 witness: the sample worker changes `/tmp` into `/var/faust` before
logging setup, and performs no change when already in `/var/faust`. -/
theorem first_start_chdir_witness :
    sampleWorker.on_first_start "/tmp"
      = ("/var/faust", [Ev.chdir "/var/faust", Ev.setupLogging]) ∧
    sampleWorker.on_first_start "/var/faust"
      = ("/var/faust", [Ev.setupLogging]) :=
  ⟨(first_start_chdir sampleWorker "/tmp").1 (by decide),
   (first_start_chdir sampleWorker "/var/faust").2.1 rfl⟩

/-- C3 counterexample: level `0` (Python `logging.NOTSET`) is numerically
below the warn threshold, yet the spinner survives root-logger setup with a
worker whose spinner is active, because the guard
`if level and level < logging.WARN` is false for a falsy level. -/
theorem spinner_low_level_counterexample :
    (0 : Nat) < WARN ∧
    (sampleWorker.on_setup_root_logger sampleLogger 0).map (fun p => p.1.spinner)
      = some (some { ticks := 0, finished := false }) := by
  decide

/-- C3 (amended): a *nonzero* effective level numerically below the warn
threshold disables the spinner before root-logger setup completes, and a
disabled spinner is terminal — neither root-logger setup nor the
startup-finished handler nor a handler emit reactivates it. -/
theorem spinner_disabled_terminal (w : Worker) (lg : RootLogger) (level : Nat)
    (record : LogRecord) :
    (level ≠ 0 → level < WARN →
      w.on_setup_root_logger lg level = some ({ w with spinner := none }, lg)) ∧
    (w.spinner = none →
      (∀ p, w.on_setup_root_logger lg level = some p → p.1.spinner = none) ∧
      ((w.on_startup_finished).1.spinner = none) ∧
      ((SpinnerHandler.emit w record).spinner = none)) := by
  constructor
  · intro h1 h2
    simp [Worker.on_setup_root_logger, h1, h2]
  · intro hnone
    refine ⟨?_, ?_, ?_⟩
    · intro p hp
      rw [setup_root_logger_of_disabled w lg level hnone] at hp
      simp only [Option.some.injEq] at hp
      rw [← hp]
      exact hnone
    · simp [Worker.on_startup_finished, hnone]
    · simp [SpinnerHandler.emit, hnone]

/-- C3 witness: at level `DEBUG` the sample worker's spinner is cleared by
root-logger setup, and with a cleared spinner an emit leaves it cleared. -/
theorem spinner_disabled_terminal_witness :
    sampleWorker.on_setup_root_logger sampleLogger DEBUG
      = some ({ sampleWorker with spinner := none }, sampleLogger) ∧
    (SpinnerHandler.emit { sampleWorker with spinner := none }
        { levelno := 20 }).spinner = none :=
  ⟨(spinner_disabled_terminal sampleWorker sampleLogger DEBUG
      { levelno := 20 }).1 (by decide) (by decide),
   ((spinner_disabled_terminal { sampleWorker with spinner := none }
      sampleLogger DEBUG { levelno := 20 }).2 rfl).2.2⟩

/-- C4 counterexample: with the configured level `WARN` and an active
spinner, root-logger setup sets the *root logger's own* level to `DEBUG`,
so the root logger no longer filters records by the configured level (the
configured level moves onto the first pre-existing handler instead). -/
theorem root_level_counterexample :
    (sampleWorker.on_setup_root_logger sampleLogger WARN).map (fun p => p.2.level)
      = some DEBUG ∧ DEBUG ≠ WARN := by
  decide

/-- C4 (amended): when the spinner survives the verbosity guard, the
spinner's handler is appended to the root logger at the maximally verbose
`DEBUG` threshold so it observes every record; the configured level is
transferred onto the root logger's first pre-existing handler, while the
root logger's own level is lowered to `DEBUG`. -/
theorem spinner_handler_attached (w : Worker) (lg : RootLogger) (level : Nat)
    (h0 : Handler) (rest : List Handler)
    (hguard : ¬(level ≠ 0 ∧ level < WARN)) (hspin : w.spinner.isSome = true)
    (hh : lg.handlers = h0 :: rest) :
    w.on_setup_root_logger lg level
      = some (w, { lg with
          handlers := ({ h0 with hlevel := level } :: rest)
            ++ [{ kind := HandlerKind.spinnerHandler, hlevel := DEBUG }],
          level := DEBUG }) := by
  obtain ⟨s, hs⟩ := Option.isSome_iff_exists.mp hspin
  unfold Worker.on_setup_root_logger
  simp [hguard, hs, hh]

/-- C4 witness: the sample worker at level `WARN` attaches the spinner
handler at `DEBUG`, moves `WARN` onto the stream handler and lowers the
root logger to `DEBUG`. -/
theorem spinner_handler_attached_witness :
    sampleWorker.on_setup_root_logger sampleLogger WARN
      = some (sampleWorker,
          { level := DEBUG,
            handlers := [{ kind := HandlerKind.stream, hlevel := WARN },
                         { kind := HandlerKind.spinnerHandler, hlevel := DEBUG }] }) :=
  spinner_handler_attached sampleWorker sampleLogger WARN
    { kind := HandlerKind.stream, hlevel := 0 } [] (by decide) (by decide) rfl

set_option maxRecDepth 1000000

/-- C5: Scenario D — the banner rendered with app id `x`, website URL
`http://h:6066`, no log file, level `WARN`, pid `1234` and hostname `node1`
contains the four literal key lines, including the `-stderr-` sentinel and
the lower-cased level name in parentheses. -/
theorem banner_scenario_D :
    containsSub (banner scenarioD) ".id          -> x" = true ∧
    containsSub (banner scenarioD) ".web         -> http://h:6066" = true ∧
    containsSub (banner scenarioD) ".log         -> -stderr- (warn)" = true ∧
    containsSub (banner scenarioD) ".pid         -> 1234" = true := by
  refine ⟨by decide, by decide, by decide, by decide⟩

/-- C6: after the construction-time linking in `on_init_dependencies`, the
app's beacon has the worker's beacon as its parent. -/
theorem app_beacon_parent (w : Worker) :
    ((w.on_init_dependencies).2).app.beacon.parent = some w.beaconId := by
  rw [on_init_app]
  simp [Beacon.reattach]

/-- C7: every sensor supplied to the worker is in the app's sensor set after
linking, and no sensor already present on the app is removed. -/
theorem sensors_preserved (w : Worker) :
    (∀ x ∈ w.sensors, x ∈ ((w.on_init_dependencies).2).app.sensors) ∧
    (∀ x ∈ w.app.sensors, x ∈ ((w.on_init_dependencies).2).app.sensors) := by
  have h := on_init_app w
  constructor
  · intro x hx
    rw [h]
    exact mem_addSensors_of_mem _ hx
  · intro x hx
    rw [h]
    exact mem_addSensors_of_mem_left _ hx

/-- C7 witness: supplied sensor `3` and pre-existing sensor `7` are both in
the sample app's sensors after linking. -/
theorem sensors_preserved_witness :
    3 ∈ ((sampleWorker.on_init_dependencies).2).app.sensors ∧
    7 ∈ ((sampleWorker.on_init_dependencies).2).app.sensors :=
  ⟨(sensors_preserved sampleWorker).1 3 (by decide),
   (sensors_preserved sampleWorker).2 7 (by decide)⟩

/-- C8: the `website` accessor is memoized — a second and a third access
return the identical instance; on a cold cache the first access constructs a
fresh instance (advancing the allocation counter), and on a warm cache an
access constructs nothing and leaves the worker untouched. -/
theorem website_memoized (w : Worker) :
    ((w.websiteAccess).2.websiteAccess).1 = (w.websiteAccess).1 ∧
    (((w.websiteAccess).2.websiteAccess).2.websiteAccess).1 = (w.websiteAccess).1 ∧
    (w.websiteCache = none →
      (w.websiteAccess).1 = w.nextId ∧
      (w.websiteAccess).2.websiteCache = some w.nextId ∧
      (w.websiteAccess).2.nextId = w.nextId + 1) ∧
    (∀ site, w.websiteCache = some site → w.websiteAccess = (site, w)) := by
  cases h : w.websiteCache <;> simp [Worker.websiteAccess, h]

/-- C8 witness: on the sample worker's cold cache the first access caches a
fresh instance, and the second access returns exactly that instance without
touching the worker. -/
theorem website_memoized_witness :
    (sampleWorker.websiteAccess).2.websiteCache = some sampleWorker.nextId ∧
    (sampleWorker.websiteAccess).2.websiteAccess
      = (0, (sampleWorker.websiteAccess).2) :=
  ⟨((website_memoized sampleWorker).2.2.1 rfl).2.1,
   (website_memoized (sampleWorker.websiteAccess).2).2.2.2 0 rfl⟩

/-- C9: while the spinner is active, each emitted log record advances the
tick counter by exactly one, whatever the record's own severity; the
handler body does no level-based filtering. -/
theorem emit_ticks_once (w : Worker) (record : LogRecord) (s : Spinner) :
    w.spinner = some s →
    (SpinnerHandler.emit w record).spinner
      = some { s with ticks := s.ticks + 1 } := by
  intro h
  simp [SpinnerHandler.emit, h]

/-- C9 witness: a record of severity `5` (below even `DEBUG`) ticks the
sample worker's spinner from `0` to `1`. -/
theorem emit_ticks_once_witness :
    (SpinnerHandler.emit sampleWorker { levelno := 5 }).spinner
      = some { ticks := 1, finished := false } :=
  emit_ticks_once sampleWorker { levelno := 5 }
    { ticks := 0, finished := false } rfl

/-- C10: with the spinner disabled an emit is a total no-op — it neither
advances a spinner nor fails — and after the startup-finished handler (which
clears the handle) every emit leaves the worker unchanged. -/
theorem emit_after_disabled_noop (w : Worker) (record : LogRecord) :
    (w.spinner = none → SpinnerHandler.emit w record = w) ∧
    SpinnerHandler.emit (w.on_startup_finished).1 record
      = (w.on_startup_finished).1 := by
  constructor
  · intro h
    simp [SpinnerHandler.emit, h]
  · cases h : w.spinner <;>
      simp [Worker.on_startup_finished, SpinnerHandler.emit, h]

/-- C10 witness: an emit of a `CRITICAL`-level record on the sample worker
with a cleared spinner returns it unchanged. -/
theorem emit_after_disabled_noop_witness :
    SpinnerHandler.emit { sampleWorker with spinner := none } { levelno := 50 }
      = { sampleWorker with spinner := none } :=
  (emit_after_disabled_noop { sampleWorker with spinner := none }
    { levelno := 50 }).1 rfl

end FaustWorker
